import Mathlib

/-!
Verification of the creovo (Lensio) web frontend against its specification.

The definitions below are shallow embeddings of the TypeScript sources:
  * apps/web/src/types/job.ts          (JobStatus enumeration)
  * apps/web/src/lib/api/client.ts     (ApiClient.request retry loop, useJobsStore)
  * apps/web/src/app/dashboard/page.tsx          (dashboard active-job count)
  * apps/web/src/app/dashboard/generate/page.tsx (credit affordability gate)
  * apps/web/src/stores/auth.store.ts  (hasRole)
  * packages/types user module         (ROLE_CONFIGS)
  * firebase auth service              (createUserDocument)
-/

namespace Creovo

/-- Job status enumeration from `apps/web/src/types/job.ts` (`enum JobStatus`),
constructors in source declaration order. -/
inductive JobStatus where
  | PENDING
  | QUEUED
  | PROCESSING
  | IDEA_GENERATION
  | SCRIPT_GENERATION
  | SCENE_BREAKDOWN
  | IMAGE_GENERATION
  | VIDEO_GENERATION
  | AUDIO_SELECTION
  | TEXT_OVERLAY
  | VIDEO_ASSEMBLY
  | PLATFORM_FORMATTING
  | EXPORTING
  | COMPLETED
  | PARTIAL
  | FAILED
  | CANCELLED
deriving DecidableEq

/-- The string value of each `JobStatus` enum member, as declared in job.ts. -/
def statusString : JobStatus → String
  | .PENDING => "pending"
  | .QUEUED => "queued"
  | .PROCESSING => "processing"
  | .IDEA_GENERATION => "idea_generation"
  | .SCRIPT_GENERATION => "script_generation"
  | .SCENE_BREAKDOWN => "scene_breakdown"
  | .IMAGE_GENERATION => "image_generation"
  | .VIDEO_GENERATION => "video_generation"
  | .AUDIO_SELECTION => "audio_selection"
  | .TEXT_OVERLAY => "text_overlay"
  | .VIDEO_ASSEMBLY => "video_assembly"
  | .PLATFORM_FORMATTING => "platform_formatting"
  | .EXPORTING => "exporting"
  | .COMPLETED => "completed"
  | .PARTIAL => "partial"
  | .FAILED => "failed"
  | .CANCELLED => "cancelled"

/-- Pipeline position of a status: its index in the declared forward order
pending → queued → … → exporting → terminal states (job.ts declaration order,
also the forward order of section 4.3 of the design notes). -/
def pipelinePosition : JobStatus → Nat
  | .PENDING => 0
  | .QUEUED => 1
  | .PROCESSING => 2
  | .IDEA_GENERATION => 3
  | .SCRIPT_GENERATION => 4
  | .SCENE_BREAKDOWN => 5
  | .IMAGE_GENERATION => 6
  | .VIDEO_GENERATION => 7
  | .AUDIO_SELECTION => 8
  | .TEXT_OVERLAY => 9
  | .VIDEO_ASSEMBLY => 10
  | .PLATFORM_FORMATTING => 11
  | .EXPORTING => 12
  | .COMPLETED => 13
  | .PARTIAL => 14
  | .FAILED => 15
  | .CANCELLED => 16

/-- The fields of a `Job` record relevant to the jobs store: identifier,
status, progress, and charged credits (representative of the record the
store merges partial updates into). -/
structure Job where
  id : String
  status : JobStatus
  progress : Nat
  creditsCharged : Nat
deriving DecidableEq

/-- A `Partial<Job>` update: every field optional; a present field overrides
the corresponding field of the job it is spread onto. -/
structure JobUpdate where
  id : Option String := none
  status : Option JobStatus := none
  progress : Option Nat := none
  creditsCharged : Option Nat := none
deriving DecidableEq

/-- The JavaScript object spread `{ ...job, ...updates }`: fields present in
`updates` win, absent fields keep the job's value. -/
def mergeJob (j : Job) (u : JobUpdate) : Job :=
  { id := u.id.getD j.id
    status := u.status.getD j.status
    progress := u.progress.getD j.progress
    creditsCharged := u.creditsCharged.getD j.creditsCharged }

/-- Job list filters kept in the jobs store (`JobFilters` in client.ts). -/
structure JobFilters where
  status : Option JobStatus := none
  platform : Option String := none
  nicheId : Option String := none
  dateFrom : Option String := none
  dateTo : Option String := none
deriving DecidableEq

/-- State of `useJobsStore` (client.ts): job list, current job, loading and
error flags, filters and pagination. -/
structure JobsState where
  jobs : List Job
  currentJob : Option Job
  isLoading : Bool
  error : Option String
  filters : JobFilters
  hasMore : Bool
  cursor : Option String
deriving DecidableEq

/-- `useJobsStore.updateJob(jobId, updates)`: maps over the job list merging
`updates` into every job whose id equals `jobId`, and merges into
`currentJob` when its id equals `jobId`; all other store fields are kept by
the setter. -/
def updateJob (jobId : String) (u : JobUpdate) (s : JobsState) : JobsState :=
  { s with
    jobs := s.jobs.map fun j => if j.id = jobId then mergeJob j u else j
    currentJob :=
      match s.currentJob with
      | some c => if c.id = jobId then some (mergeJob c u) else some c
      | none => none }

/-- The `activeStatuses` list of `useJobsStore.getActiveJobs`, exactly the
thirteen statuses enumerated in the source (PARTIAL, COMPLETED, FAILED and
CANCELLED are absent). -/
def activeStatuses : List JobStatus :=
  [ .PENDING, .QUEUED, .PROCESSING, .IDEA_GENERATION, .SCRIPT_GENERATION,
    .SCENE_BREAKDOWN, .IMAGE_GENERATION, .VIDEO_GENERATION, .AUDIO_SELECTION,
    .TEXT_OVERLAY, .VIDEO_ASSEMBLY, .PLATFORM_FORMATTING, .EXPORTING ]

/-- `useJobsStore.getActiveJobs()`: jobs whose status is in `activeStatuses`. -/
def getActiveJobs (s : JobsState) : List Job :=
  s.jobs.filter fun j => activeStatuses.contains j.status

/-- `useJobsStore.getCompletedJobs()`. -/
def getCompletedJobs (s : JobsState) : List Job :=
  s.jobs.filter fun j => j.status = .COMPLETED

/-- `useJobsStore.getFailedJobs()`: status FAILED or PARTIAL. -/
def getFailedJobs (s : JobsState) : List Job :=
  s.jobs.filter fun j => j.status = .FAILED || j.status = .PARTIAL

/-- The dashboard page's active-job computation
(`jobs.filter(j => !['completed','failed','cancelled'].includes(j.status))`,
dashboard page component): it compares the status string against the three
listed strings only. -/
def dashboardActiveJobs (jobs : List Job) : List Job :=
  jobs.filter fun j =>
    !(["completed", "failed", "cancelled"].contains (statusString j.status))

/-! ## Generate page (apps/web/src/app/dashboard/generate/page.tsx) -/

/-- The niche fields used by the generate page. -/
structure Niche where
  id : String
  name : String
  estimatedCreditCost : Nat
  isPremium : Bool
deriving DecidableEq

/-- The signed-in user fields used by the generate page. -/
structure PageUser where
  credits : Nat
deriving DecidableEq

/-- `const estimatedCredits = selectedNiche?.estimatedCreditCost || 3;` —
JavaScript `||` takes the right operand when the left is `undefined`
(no niche selected) or the falsy number `0`. -/
def estimatedCreditsOf (n : Option Niche) : Nat :=
  match n with
  | some niche => if niche.estimatedCreditCost = 0 then 3 else niche.estimatedCreditCost
  | none => 3

/-- `user?.credits || 0` — `0` when no user is signed in (and `0` stays `0`). -/
def userCreditsOf (u : Option PageUser) : Nat :=
  match u with
  | some user => user.credits
  | none => 0

/-- `const canAfford = (user?.credits || 0) >= estimatedCredits;`. -/
def canAffordPage (u : Option PageUser) (n : Option Niche) : Bool :=
  decide (userCreditsOf u ≥ estimatedCreditsOf n)

/-- The confirm-step state of the generate page that determines the Generate
button and the submitted request. -/
structure GenState where
  user : Option PageUser
  selectedNiche : Option Niche
  selectedPlatform : Option String
  duration : Nat
  customTopic : String
  generating : Bool
deriving DecidableEq

/-- The body sent by `jobsApi.create` from `handleGenerate`. -/
structure CreateJobRequest where
  nicheId : String
  platform : String
  duration : Nat
  customTopic : Option String
deriving DecidableEq

/-- The Generate button's `disabled={!canAfford || generating}` attribute. -/
def generateDisabled (st : GenState) : Bool :=
  !canAffordPage st.user st.selectedNiche || st.generating

/-- `handleGenerate`: returns early unless a niche and a platform are
selected, otherwise builds the `jobsApi.create` request body (custom topic
spread in only when non-empty). -/
def handleGenerate (st : GenState) : Option CreateJobRequest :=
  match st.selectedNiche, st.selectedPlatform with
  | some n, some p =>
      some { nicheId := n.id, platform := p, duration := st.duration,
             customTopic := if st.customTopic = "" then none else some st.customTopic }
  | _, _ => none

/-- Clicking the Generate button: a disabled button never fires its click
handler, so `handleGenerate` (and hence `jobsApi.create`) runs only when the
button is enabled. The result is the job-creation request submitted, if any. -/
def clickGenerate (st : GenState) : Option CreateJobRequest :=
  if generateDisabled st then none else handleGenerate st

/-! ## API client (apps/web/src/lib/api/client.ts) -/

/-- HTTP methods accepted by `ApiClient.request`. -/
inductive HttpMethod where
  | GET | POST | PUT | PATCH | DELETE
deriving DecidableEq

/-- The `ApiError` payload: error code and human-readable message. -/
structure ApiError where
  code : String
  message : String
deriving DecidableEq

/-- Outcome of one `fetch` of the request URL, as observed by the retry loop:
a parsed ok response, a non-ok response with HTTP status and optional parsed
error body, or a thrown network/parse error. -/
inductive FetchOutcome where
  | ok (data : String)
  | httpError (status : Nat) (errorBody : Option ApiError)
  | networkError (message : String)
deriving DecidableEq

/-- The discriminated `ApiResponse` result returned to the caller. -/
inductive ApiResult where
  | success (data : String)
  | failure (error : ApiError)
deriving DecidableEq

/-- Externally visible events of one `ApiClient.request` call: each `fetch`
issue and each backoff `delay(ms)`. -/
inductive ReqEvent where
  | fetch
  | delayMs (ms : Nat)
deriving DecidableEq

/-- `MAX_RETRIES` constant of client.ts. -/
def MAX_RETRIES : Nat := 3

/-- `RETRY_DELAY` constant of client.ts (milliseconds). -/
def RETRY_DELAY : Nat := 1000

/-- `ApiClient.isRetryable(status)`: `status === 429 || status >= 500`. -/
def isRetryable (status : Nat) : Bool :=
  status == 429 || status ≥ 500

/-- Default error used when a non-ok response carries no parsed error body. -/
def unexpectedError : ApiError :=
  { code := "INTERNAL_ERROR", message := "An unexpected error occurred" }

/-- Error returned after the loop exhausts all attempts with no recorded
network error. -/
def maxRetriesError : ApiError :=
  { code := "INTERNAL_ERROR", message := "Max retries exceeded" }

/-- The `for (let attempt = 0; attempt < retries; attempt++)` loop body of
`ApiClient.request`, with `fuel` iterations remaining (so the current
attempt index is `retries - fuel`, counting from the call with
`fuel = retries`).  The fetch outcome of attempt `i` is `oracle i`.  Returns
the result together with the trace of fetches and backoff delays:
  * ok response: success, loop ends;
  * non-ok response: if retryable status and not the last attempt, delay
    `RETRY_DELAY * 2 ^ attempt` and continue, else return the response's
    error body (or the default) immediately;
  * thrown error: record it as `lastError`, delay and continue unless this
    was the last attempt;
  * loop exhausted: return `lastError` or the max-retries default. -/
def requestLoop (oracle : Nat → FetchOutcome) (retries : Nat) :
    Nat → Option ApiError → ApiResult × List ReqEvent
  | 0, lastError =>
      (.failure (lastError.getD maxRetriesError), [])
  | fuel + 1, lastError =>
      match oracle (retries - (fuel + 1)) with
      | .ok d => (.success d, [.fetch])
      | .httpError st body =>
          if isRetryable st && decide (retries - (fuel + 1) < retries - 1) then
            let r := requestLoop oracle retries fuel lastError
            (r.1, .fetch :: .delayMs (RETRY_DELAY * 2 ^ (retries - (fuel + 1))) :: r.2)
          else
            (.failure (body.getD unexpectedError), [.fetch])
      | .networkError msg =>
          let le : ApiError := { code := "EXTERNAL_SERVICE_ERROR", message := msg }
          if decide (retries - (fuel + 1) < retries - 1) then
            let r := requestLoop oracle retries fuel (some le)
            (r.1, .fetch :: .delayMs (RETRY_DELAY * 2 ^ (retries - (fuel + 1))) :: r.2)
          else
            (.failure le, [.fetch])

/-- `ApiClient.request(method, path, { retries })`: runs the retry loop from
attempt 0 with no recorded error.  The `method` parameter is carried into
the request init but, as in the source, plays no role in the retry
decisions. -/
def requestWith (method : HttpMethod) (oracle : Nat → FetchOutcome)
    (retries : Nat) : ApiResult × List ReqEvent :=
  requestLoop oracle retries retries none

/-- `ApiClient.request` with the default `retries = MAX_RETRIES`, which is
how every convenience method (`get`, `post`, `put`, `patch`, `delete`) and
in particular `jobsApi.create` (`apiClient.post('/jobs', data)`) calls it. -/
def request (method : HttpMethod) (oracle : Nat → FetchOutcome) :
    ApiResult × List ReqEvent :=
  requestWith method oracle MAX_RETRIES

/-- An outcome on which the loop does not return directly: a response with a
retryable HTTP status, or a thrown network error. -/
def retryableOutcome : FetchOutcome → Prop
  | .ok _ => False
  | .httpError st _ => isRetryable st = true
  | .networkError _ => True

/-! ## Roles and entitlements (user types module, auth.store.ts) -/

/-- The per-minute / per-day rate limits of a role configuration. -/
structure RateLimit where
  requestsPerMinute : Int
  generationsPerDay : Int
deriving DecidableEq

/-- `RoleConfig`: the fixed limits looked up per role; `-1` is the sentinel
for "unlimited" in the integer fields. -/
structure RoleConfig where
  role : String
  creditsPerMonth : Int
  maxConcurrentJobs : Int
  maxResolution : String
  maxNiches : Int
  allowedPlatforms : List String
  priorityQueue : Bool
  apiAccess : Bool
  teamAccess : Bool
  rateLimit : RateLimit
deriving DecidableEq

/-- The FREE entry of `ROLE_CONFIGS`. -/
def freeConfig : RoleConfig :=
  { role := "free", creditsPerMonth := 5, maxConcurrentJobs := 1,
    maxResolution := "720p", maxNiches := 2, allowedPlatforms := ["tiktok"],
    priorityQueue := false, apiAccess := false, teamAccess := false,
    rateLimit := { requestsPerMinute := 10, generationsPerDay := 5 } }

/-- The STARTER entry of `ROLE_CONFIGS`. -/
def starterConfig : RoleConfig :=
  { role := "starter", creditsPerMonth := 30, maxConcurrentJobs := 2,
    maxResolution := "1080p", maxNiches := 5,
    allowedPlatforms := ["tiktok", "youtube_shorts", "instagram_reels"],
    priorityQueue := false, apiAccess := false, teamAccess := false,
    rateLimit := { requestsPerMinute := 30, generationsPerDay := 30 } }

/-- The PRO entry of `ROLE_CONFIGS`. -/
def proConfig : RoleConfig :=
  { role := "pro", creditsPerMonth := 100, maxConcurrentJobs := 5,
    maxResolution := "1080p", maxNiches := -1,
    allowedPlatforms := ["tiktok", "youtube_shorts", "instagram_reels", "instagram_stories"],
    priorityQueue := true, apiAccess := false, teamAccess := false,
    rateLimit := { requestsPerMinute := 60, generationsPerDay := 100 } }

/-- The AGENCY entry of `ROLE_CONFIGS`. -/
def agencyConfig : RoleConfig :=
  { role := "agency", creditsPerMonth := 500, maxConcurrentJobs := 20,
    maxResolution := "4k", maxNiches := -1,
    allowedPlatforms := ["tiktok", "youtube_shorts", "instagram_reels", "instagram_stories"],
    priorityQueue := true, apiAccess := true, teamAccess := true,
    rateLimit := { requestsPerMinute := 120, generationsPerDay := 500 } }

/-- The ADMIN entry of `ROLE_CONFIGS`. -/
def adminConfig : RoleConfig :=
  { role := "admin", creditsPerMonth := -1, maxConcurrentJobs := -1,
    maxResolution := "4k", maxNiches := -1,
    allowedPlatforms := ["tiktok", "youtube_shorts", "instagram_reels", "instagram_stories"],
    priorityQueue := true, apiAccess := true, teamAccess := true,
    rateLimit := { requestsPerMinute := -1, generationsPerDay := -1 } }

/-- `ROLE_CONFIGS` as evaluated at runtime: a JavaScript object keyed by the
five role strings; accessing any other key yields `undefined` (`none`). -/
def ROLE_CONFIGS (role : String) : Option RoleConfig :=
  if role = "free" then some freeConfig
  else if role = "starter" then some starterConfig
  else if role = "pro" then some proConfig
  else if role = "agency" then some agencyConfig
  else if role = "admin" then some adminConfig
  else none

/-- The `roleHierarchy` array of `useAuthStore.hasRole`, holding the string
values of the five `UserRole` members in ascending order. -/
def roleHierarchy : List String :=
  ["free", "starter", "pro", "agency", "admin"]

/-- The user fields `useAuthStore` reads: role string, credit balance and
account status (role is a plain string at runtime, whatever Firestore holds). -/
structure StoreUser where
  role : String
  credits : Nat
  status : String
deriving DecidableEq

/-- JavaScript `Array.prototype.indexOf`: index of the first occurrence, or
`-1` when the element is absent. -/
def indexOfJS (xs : List String) (x : String) : Int :=
  match xs with
  | [] => -1
  | y :: ys =>
      if y = x then 0
      else if indexOfJS ys x = -1 then -1 else indexOfJS ys x + 1

/-- `useAuthStore.hasRole(role)`: false when no user document is loaded,
otherwise compares the hierarchy indices of the user's role and the
required role. -/
def hasRole (user : Option StoreUser) (role : String) : Bool :=
  match user with
  | none => false
  | some u =>
      decide (indexOfJS roleHierarchy u.role ≥ indexOfJS roleHierarchy role)

/-- Rank of a known role in the order free < starter < pro < agency < admin
(the spec's ordered-tier reading; only meaningful on the five known roles). -/
def roleRank : String → Nat
  | "starter" => 1
  | "pro" => 2
  | "agency" => 3
  | "admin" => 4
  | _ => 0

/-! ## First sign-in user document (firebase auth service) -/

/-- The Firebase user fields `createUserDocument` reads. -/
structure FirebaseUserInfo where
  uid : String
  email : String
  displayName : Option String
  photoURL : Option String
  emailVerified : Bool
deriving DecidableEq

/-- The `googleDrive` connection object of a new user document. -/
structure GoogleDriveConnection where
  connected : Bool
  email : Option String := none
  folderId : Option String := none
deriving DecidableEq

/-- The `preferences.exportSettings` object. -/
structure ExportSettings where
  folderStructure : String
  fileNaming : String
  includeMetadata : Bool
  includeCaptions : Bool
deriving DecidableEq

/-- The `preferences.notifications` object. -/
structure NotificationPrefs where
  email : Bool
  jobComplete : Bool
  jobFailed : Bool
  weeklyDigest : Bool
deriving DecidableEq

/-- The `preferences` object of a user document. -/
structure UserPreferences where
  defaultPlatform : String
  defaultNiches : List String
  exportSettings : ExportSettings
  notifications : NotificationPrefs
deriving DecidableEq

/-- The `usage` statistics object of a user document. -/
structure UserUsageStats where
  totalGenerations : Nat
  totalCreditsUsed : Nat
  generationsThisMonth : Nat
  creditsUsedThisMonth : Nat
deriving DecidableEq

/-- The `flags` object of a user document. -/
structure UserFlags where
  onboardingComplete : Bool
  hasGeneratedFirstVideo : Bool
  hasPurchased : Bool
deriving DecidableEq

/-- A connected OAuth account entry (element type of `connectedAccounts`). -/
structure ConnectedAccount where
  provider : String
  providerId : String
  email : String
deriving DecidableEq

/-- The user document written to Firestore. -/
structure UserDoc where
  id : String
  email : String
  displayName : Option String
  photoUrl : Option String
  role : String
  status : String
  emailVerified : Bool
  credits : Nat
  lifetimeCredits : Nat
  connectedAccounts : List ConnectedAccount
  googleDrive : GoogleDriveConnection
  preferences : UserPreferences
  usage : UserUsageStats
  flags : UserFlags
deriving DecidableEq

/-- `AuthService.createUserDocument(firebaseUser, displayName)`: the data
object written by `setDoc` for a user signing in for the first time
(audit timestamps omitted). -/
def createUserDocument (fu : FirebaseUserInfo) (displayName : Option String) :
    UserDoc :=
  { id := fu.uid
    email := fu.email
    displayName :=
      match displayName with
      | some d => some d
      | none => fu.displayName
    photoUrl := fu.photoURL
    role := "free"
    status := "pending_verification"
    emailVerified := fu.emailVerified
    credits := 5
    lifetimeCredits := 5
    connectedAccounts := []
    googleDrive := { connected := false }
    preferences :=
      { defaultPlatform := "tiktok"
        defaultNiches := []
        exportSettings :=
          { folderStructure := "by-platform"
            fileNaming := "{date}_{niche}_{id}"
            includeMetadata := true
            includeCaptions := true }
        notifications :=
          { email := true, jobComplete := true, jobFailed := true,
            weeklyDigest := false } }
    usage :=
      { totalGenerations := 0, totalCreditsUsed := 0,
        generationsThisMonth := 0, creditsUsedThisMonth := 0 }
    flags :=
      { onboardingComplete := false, hasGeneratedFirstVideo := false,
        hasPurchased := false } }

/-- The document written by `AuthService.register` (email/password sign-up):
`createUserDocument(credential.user, displayName)`. -/
def registerUserDoc (fu : FirebaseUserInfo) (displayName : Option String) :
    UserDoc :=
  createUserDocument fu displayName

/-- The document written by `AuthService.signInWithGoogle` when no user
document exists yet:
`createUserDocument(credential.user, credential.user.displayName ?? undefined)`. -/
def googleFirstSignInDoc (fu : FirebaseUserInfo) : UserDoc :=
  createUserDocument fu fu.displayName

/-! ## Concrete instances used by witnesses and counterexamples -/

/-- A niche whose estimated credit cost is 3. -/
def niche3 : Niche :=
  { id := "niche-1", name := "Motivation", estimatedCreditCost := 3,
    isPremium := false }

/-- A signed-in user holding 2 credits. -/
def user2 : PageUser := { credits := 2 }

/-- The confirm step with `credits = 2` against `estimatedCreditCost = 3`. -/
def stPoor : GenState :=
  { user := some user2, selectedNiche := some niche3,
    selectedPlatform := some "tiktok", duration := 30, customTopic := "",
    generating := false }

/-- A job currently in status `video_generation`. -/
def jobVG : Job :=
  { id := "job-1", status := .VIDEO_GENERATION, progress := 50,
    creditsCharged := 0 }

/-- A store holding only `jobVG`. -/
def stateVG : JobsState :=
  { jobs := [jobVG], currentJob := none, isLoading := false, error := none,
    filters := {}, hasMore := false, cursor := none }

/-- A status update regressing to `idea_generation`. -/
def regressionUpdate : JobUpdate := { status := some .IDEA_GENERATION }

/-- A job in the terminal-but-recoverable status `partial`. -/
def jobP : Job :=
  { id := "job-p", status := .PARTIAL, progress := 80, creditsCharged := 3 }

/-- Two distinct jobs and a store holding both, for the frame property. -/
def jobA : Job :=
  { id := "a", status := .QUEUED, progress := 0, creditsCharged := 0 }

/-- Second job of the frame-property store. -/
def jobB : Job :=
  { id := "b", status := .PENDING, progress := 0, creditsCharged := 0 }

/-- Store holding `jobA` and `jobB`, with `jobA` current. -/
def stateAB : JobsState :=
  { jobs := [jobA, jobB], currentJob := some jobA, isLoading := false,
    error := some "e", filters := { platform := some "tiktok" },
    hasMore := true, cursor := some "cur" }

/-- A partial update setting only `progress`. -/
def progressUpdate : JobUpdate := { progress := some 10 }

/-- Fetch oracle answering every attempt with HTTP 404 and a parsed body. -/
def oracle404 : Nat → FetchOutcome :=
  fun _ => .httpError 404 (some { code := "NOT_FOUND", message := "missing" })

/-- Fetch oracle answering every attempt with HTTP 500 and no parsed body. -/
def oracle500 : Nat → FetchOutcome :=
  fun _ => .httpError 500 none

/-- Fetch oracle failing the first attempt with HTTP 500, then succeeding. -/
def oracle500then200 : Nat → FetchOutcome :=
  fun n => if n = 0 then .httpError 500 none else .ok "created"

/-- A Firestore user whose role string is not one of the five known roles. -/
def moderatorUser : StoreUser :=
  { role := "moderator", credits := 0, status := "active" }

/-- A Firestore user with the known role `pro`. -/
def proUser : StoreUser := { role := "pro", credits := 10, status := "active" }

/-! ## Theorems -/

/-- C1: whenever the signed-in user's credit balance is strictly below the
selected niche's estimated credit cost, the confirm-step Generate button is
disabled and clicking it submits nothing, so `jobsApi.create` is never
invoked. -/
theorem c1_insufficient_credits_blocks_submission
    (st : GenState) (u : PageUser) (n : Niche)
    (hu : st.user = some u) (hn : st.selectedNiche = some n)
    (hlt : u.credits < n.estimatedCreditCost) :
    generateDisabled st = true ∧ clickGenerate st = none := by
  have hcost : n.estimatedCreditCost ≠ 0 := by omega
  have hca : canAffordPage st.user st.selectedNiche = false := by
    simp only [canAffordPage, userCreditsOf, estimatedCreditsOf, hu, hn,
      if_neg hcost, decide_eq_false_iff_not]
    omega
  refine ⟨?_, ?_⟩
  · simp [generateDisabled, hca]
  · simp [clickGenerate, generateDisabled, hca]

/-- C1 witness: a user with 2 credits and a niche estimated at 3 credits has
the Generate button disabled and cannot submit a job. -/
theorem c1_witness :
    (2 : Nat) < 3 ∧ generateDisabled stPoor = true ∧
      clickGenerate stPoor = none :=
  ⟨by decide,
   (c1_insufficient_credits_blocks_submission stPoor user2 niche3 rfl rfl
      (by decide)).1,
   (c1_insufficient_credits_blocks_submission stPoor user2 niche3 rfl rfl
      (by decide)).2⟩

/-- C2: the affordability check is exactly the predicate
`userCredits >= totalCredits`, and — being a pure function — evaluating it
any number of times with identical inputs yields identical results. -/
theorem c2_canAfford_pure_predicate (u : Option PageUser) (n : Option Niche) :
    (canAffordPage u n = true ↔ estimatedCreditsOf n ≤ userCreditsOf u) ∧
    ∀ k : Nat,
      (List.replicate k (canAffordPage u n)).all
        (fun b => b == canAffordPage u n) = true := by
  refine ⟨by simp [canAffordPage, ge_iff_le], ?_⟩
  intro k
  simp only [List.all_eq_true]
  intro b hb
  have hbe := List.eq_of_mem_replicate hb
  simp [hbe]

/-- C5 counterexample: a job in `video_generation` receiving a status update
to `idea_generation` — a strict pipeline regression into a non-terminal
state — is silently accepted as the job's new state by `updateJob`. -/
theorem c5_counterexample :
    pipelinePosition .IDEA_GENERATION < pipelinePosition .VIDEO_GENERATION ∧
    JobStatus.IDEA_GENERATION ∉
      [JobStatus.FAILED, JobStatus.CANCELLED, JobStatus.PARTIAL] ∧
    (updateJob "job-1" regressionUpdate stateVG).jobs =
      [{ jobVG with status := .IDEA_GENERATION }] := by
  decide

/-- C5 amended: the client-side status projection performs no regression
check at all — `updateJob` applies any status update unconditionally, so
every job matching the id takes the new status regardless of pipeline
position. -/
theorem c5_amended_update_applied_unconditionally
    (s : JobsState) (jid : String) (newSt : JobStatus) (j : Job)
    (hj : j ∈ (updateJob jid { status := some newSt } s).jobs)
    (hid : j.id = jid) : j.status = newSt := by
  simp only [updateJob, List.mem_map] at hj
  obtain ⟨j0, _, heq⟩ := hj
  by_cases h : j0.id = jid
  · rw [if_pos h] at heq
    rw [← heq]
    rfl
  · rw [if_neg h] at heq
    rw [← heq] at hid
    exact absurd hid h

/-- C5 amended witness: the regressed job in the updated store indeed
carries the regressed status. -/
theorem c5_amended_witness :
    (Job.mk "job-1" .IDEA_GENERATION 50 0).status = .IDEA_GENERATION :=
  c5_amended_update_applied_unconditionally stateVG "job-1" .IDEA_GENERATION
    (Job.mk "job-1" .IDEA_GENERATION 50 0) (by decide) (by decide)

/-- C6 counterexample: a job with status `partial` is counted among active
jobs by the dashboard page's active-jobs filter, which only excludes
`completed`, `failed` and `cancelled`. -/
theorem c6_counterexample :
    jobP.status = .PARTIAL ∧ dashboardActiveJobs [jobP] = [jobP] := by
  decide

/-- C6 amended: the jobs store's `getActiveJobs` never includes a `partial`
job (and its `getFailedJobs` classifies `partial` with the failures), but
the dashboard page's active-jobs filter does include every `partial` job. -/
theorem c6_amended_partial_active_only_on_dashboard :
    (∀ (s : JobsState) (j : Job), j ∈ getActiveJobs s → j.status ≠ .PARTIAL) ∧
    (∀ (s : JobsState) (j : Job), j ∈ s.jobs → j.status = .PARTIAL →
        j ∈ getFailedJobs s) ∧
    (∀ (jobs : List Job) (j : Job), j ∈ jobs → j.status = .PARTIAL →
        j ∈ dashboardActiveJobs jobs) := by
  refine ⟨?_, ?_, ?_⟩
  · intro s j hj hp
    simp only [getActiveJobs, List.mem_filter] at hj
    have hc := hj.2
    rw [hp] at hc
    exact absurd hc (by decide)
  · intro s j hj hp
    simp only [getFailedJobs, List.mem_filter]
    exact ⟨hj, by rw [hp]; decide⟩
  · intro jobs j hj hp
    simp only [dashboardActiveJobs, List.mem_filter]
    exact ⟨hj, by rw [hp]; decide⟩

/-- C6 amended witness: a queued job passes the store's active filter, and a
concrete `partial` job is counted active by the dashboard while the store
files it with the failed jobs. -/
theorem c6_amended_witness :
    jobVG.status ≠ .PARTIAL ∧
    jobP ∈ getFailedJobs { stateVG with jobs := [jobP] } ∧
    jobP ∈ dashboardActiveJobs [jobP] :=
  ⟨c6_amended_partial_active_only_on_dashboard.1 stateVG jobVG (by decide),
   c6_amended_partial_active_only_on_dashboard.2.1
     { stateVG with jobs := [jobP] } jobP (by decide) rfl,
   c6_amended_partial_active_only_on_dashboard.2.2 [jobP] jobP
     (by decide) rfl⟩

/-- C9: `updateJob` replaces exactly the jobs whose id matches (merged with
the update), preserves list length, order and every unmatched job, merges
`currentJob` exactly when its id matches, and leaves filters, loading flag,
error, and pagination untouched. -/
theorem c9_updateJob_frame (s : JobsState) (jid : String) (u : JobUpdate) :
    (updateJob jid u s).jobs.length = s.jobs.length ∧
    (∀ (i : Nat) (j : Job), s.jobs[i]? = some j → j.id ≠ jid →
        (updateJob jid u s).jobs[i]? = some j) ∧
    (∀ (i : Nat) (j : Job), s.jobs[i]? = some j → j.id = jid →
        (updateJob jid u s).jobs[i]? = some (mergeJob j u)) ∧
    (s.currentJob = none → (updateJob jid u s).currentJob = none) ∧
    (∀ c, s.currentJob = some c →
        (updateJob jid u s).currentJob =
          some (if c.id = jid then mergeJob c u else c)) ∧
    (updateJob jid u s).filters = s.filters ∧
    (updateJob jid u s).isLoading = s.isLoading ∧
    (updateJob jid u s).error = s.error ∧
    (updateJob jid u s).hasMore = s.hasMore ∧
    (updateJob jid u s).cursor = s.cursor := by
  refine ⟨by simp [updateJob], ?_, ?_, ?_, ?_, rfl, rfl, rfl, rfl, rfl⟩
  · intro i j hij hne
    simp only [updateJob, List.getElem?_map, hij]
    simp [hne]
  · intro i j hij heq
    simp only [updateJob, List.getElem?_map, hij]
    simp [heq]
  · intro hc
    simp [updateJob, hc]
  · intro c hc
    simp only [updateJob, hc]
    split <;> rfl

/-- C9 witness: updating job "a" in a two-job store bumps only job "a",
leaves job "b" in place, merges the current job and keeps the other fields. -/
theorem c9_witness :
    (updateJob "a" progressUpdate stateAB).jobs.length = 2 ∧
    (updateJob "a" progressUpdate stateAB).jobs[1]? = some jobB ∧
    (updateJob "a" progressUpdate stateAB).jobs[0]? =
      some (mergeJob jobA progressUpdate) ∧
    (updateJob "a" progressUpdate stateAB).currentJob =
      some (if jobA.id = "a" then mergeJob jobA progressUpdate else jobA) ∧
    (updateJob "a" progressUpdate stateAB).filters = stateAB.filters :=
  ⟨(c9_updateJob_frame stateAB "a" progressUpdate).1,
   (c9_updateJob_frame stateAB "a" progressUpdate).2.1 1 jobB rfl (by decide),
   (c9_updateJob_frame stateAB "a" progressUpdate).2.2.1 0 jobA rfl rfl,
   (c9_updateJob_frame stateAB "a" progressUpdate).2.2.2.2.1 jobA rfl,
   (c9_updateJob_frame stateAB "a" progressUpdate).2.2.2.2.2.1⟩

/-- One-step unfolding of the retry loop at the first of three attempts
(fuel 3, attempt 0): backoff delay `1000 * 2 ^ 0 = 1000` ms. -/
theorem requestLoop_step_three (oracle : Nat → FetchOutcome) :
    requestLoop oracle 3 3 none =
      match oracle 0 with
      | .ok d => (.success d, [.fetch])
      | .httpError st body =>
          if isRetryable st && decide ((0 : Nat) < 2) then
            ((requestLoop oracle 3 2 none).1,
              .fetch :: .delayMs 1000 :: (requestLoop oracle 3 2 none).2)
          else (.failure (body.getD unexpectedError), [.fetch])
      | .networkError msg =>
          if decide ((0 : Nat) < 2) then
            ((requestLoop oracle 3 2
                (some { code := "EXTERNAL_SERVICE_ERROR", message := msg })).1,
              .fetch :: .delayMs 1000 ::
                (requestLoop oracle 3 2
                  (some { code := "EXTERNAL_SERVICE_ERROR",
                          message := msg })).2)
          else (.failure { code := "EXTERNAL_SERVICE_ERROR", message := msg },
                [.fetch]) := rfl

/-- One-step unfolding of the retry loop at the second of three attempts
(fuel 2, attempt 1): backoff delay `1000 * 2 ^ 1 = 2000` ms. -/
theorem requestLoop_step_two (oracle : Nat → FetchOutcome)
    (le : Option ApiError) :
    requestLoop oracle 3 2 le =
      match oracle 1 with
      | .ok d => (.success d, [.fetch])
      | .httpError st body =>
          if isRetryable st && decide ((1 : Nat) < 2) then
            ((requestLoop oracle 3 1 le).1,
              .fetch :: .delayMs 2000 :: (requestLoop oracle 3 1 le).2)
          else (.failure (body.getD unexpectedError), [.fetch])
      | .networkError msg =>
          if decide ((1 : Nat) < 2) then
            ((requestLoop oracle 3 1
                (some { code := "EXTERNAL_SERVICE_ERROR", message := msg })).1,
              .fetch :: .delayMs 2000 ::
                (requestLoop oracle 3 1
                  (some { code := "EXTERNAL_SERVICE_ERROR",
                          message := msg })).2)
          else (.failure { code := "EXTERNAL_SERVICE_ERROR", message := msg },
                [.fetch]) := rfl

/-- C3 counterexample: a POST request (the method `jobsApi.create` uses)
whose first attempt fails with HTTP 500 is automatically re-issued — the
trace shows two fetches around a backoff delay, and the second attempt's
response is returned, so a non-GET request is silently retried. -/
theorem c3_counterexample :
    (request .POST oracle500then200).2 = [.fetch, .delayMs 1000, .fetch] ∧
    (request .POST oracle500then200).1 = .success "created" := by
  constructor <;> rfl

/-- C3 amended: the client's retry policy is method-blind — the retry
behaviour of every method equals that of GET, and in particular any method's
request whose first attempt fails with a retryable status is re-issued after
a backoff delay, so job creation is not at-most-once from the caller's
perspective. -/
theorem c3_amended_retry_is_method_blind :
    (∀ (m : HttpMethod) (oracle : Nat → FetchOutcome) (retries : Nat),
        requestWith m oracle retries = requestWith .GET oracle retries) ∧
    (∀ (m : HttpMethod) (oracle : Nat → FetchOutcome) (st : Nat)
        (b : Option ApiError), isRetryable st = true →
        oracle 0 = .httpError st b →
        ∃ rest, (request m oracle).2 =
          .fetch :: .delayMs 1000 :: .fetch :: rest) := by
  refine ⟨fun m oracle retries => rfl, ?_⟩
  intro m oracle st b hret h0
  have hsecond : ∃ rest, (requestLoop oracle 3 2 none).2 = .fetch :: rest := by
    rw [requestLoop_step_two oracle none]
    rcases h1 : oracle 1 with d | ⟨st1, b1⟩ | m1
    · exact ⟨[], rfl⟩
    · cases hr1 : isRetryable st1 with
      | true =>
          exact ⟨.delayMs 2000 :: (requestLoop oracle 3 1 none).2,
            by simp [hr1]⟩
      | false => exact ⟨[], by simp [hr1]⟩
    · exact ⟨.delayMs 2000 ::
          (requestLoop oracle 3 1
            (some { code := "EXTERNAL_SERVICE_ERROR", message := m1 })).2,
        by simp⟩
  obtain ⟨rest, hrest⟩ := hsecond
  refine ⟨rest, ?_⟩
  show (requestLoop oracle 3 3 none).2 = _
  rw [requestLoop_step_three oracle, h0]
  simp [hret, hrest]

/-- C3 amended witness: the POST whose first attempt returns HTTP 500 is
re-issued after the 1000 ms backoff. -/
theorem c3_amended_witness :
    ∃ rest, (request .POST oracle500then200).2 =
      .fetch :: .delayMs 1000 :: .fetch :: rest :=
  c3_amended_retry_is_method_blind.2 .POST oracle500then200 500 none rfl rfl

/-- C4: a first-attempt response with a non-retryable status is surfaced
immediately — one fetch, no delay, the response's error body (or the
default) returned; and when every attempt fails retryably (429/5xx or
network error), exactly `MAX_RETRIES = 3` fetches are issued, separated by
backoff delays of `1000 * 2 ^ attempt` milliseconds, after which a single
error result is returned. -/
theorem c4_retry_policy (m : HttpMethod) (oracle : Nat → FetchOutcome) :
    (∀ (st : Nat) (b : Option ApiError),
        isRetryable st = false → oracle 0 = .httpError st b →
        request m oracle = (.failure (b.getD unexpectedError), [.fetch])) ∧
    ((∀ i, i < MAX_RETRIES → retryableOutcome (oracle i)) →
        ∃ e, request m oracle =
          (.failure e,
           [.fetch, .delayMs 1000, .fetch, .delayMs 2000, .fetch])) := by
  constructor
  · intro st b hrf h0
    show requestLoop oracle 3 3 none = _
    simp [requestLoop, h0, hrf]
  · intro h
    have h0' := h 0 (by decide)
    have h1' := h 1 (by decide)
    have h2' := h 2 (by decide)
    obtain ⟨e2, hL2⟩ :
        ∃ e, ∀ le, requestLoop oracle 3 1 le = (.failure e, [.fetch]) := by
      rcases h2 : oracle 2 with d | ⟨st2, b2⟩ | m2
      · rw [h2] at h2'
        exact h2'.elim
      · rw [h2] at h2'
        have hr2 : isRetryable st2 = true := h2'
        exact ⟨b2.getD unexpectedError,
          fun le => by simp [requestLoop, h2, hr2]⟩
      · exact ⟨{ code := "EXTERNAL_SERVICE_ERROR", message := m2 },
          fun le => by simp [requestLoop, h2]⟩
    have hL1 : ∀ le, requestLoop oracle 3 2 le =
        (.failure e2, [.fetch, .delayMs 2000, .fetch]) := by
      intro le
      rw [requestLoop_step_two oracle le]
      rcases h1 : oracle 1 with d | ⟨st1, b1⟩ | m1
      · rw [h1] at h1'
        exact h1'.elim
      · rw [h1] at h1'
        have hr1 : isRetryable st1 = true := h1'
        simp [hr1, hL2]
      · simp [hL2]
    refine ⟨e2, ?_⟩
    show requestLoop oracle 3 3 none = _
    rw [requestLoop_step_three oracle]
    rcases h0 : oracle 0 with d | ⟨st0, b0⟩ | m0
    · rw [h0] at h0'
      exact h0'.elim
    · rw [h0] at h0'
      have hr0 : isRetryable st0 = true := h0'
      simp [hr0, hL1]
    · simp [hL1]

/-- C4 witness: a 404 with a parsed body surfaces immediately with one
fetch; an oracle answering 500 on every attempt exhausts three fetches with
delays 1000 and 2000 ms before the single terminal error. -/
theorem c4_witness :
    request .GET oracle404 =
      (.failure { code := "NOT_FOUND", message := "missing" }, [.fetch]) ∧
    ∃ e, request .GET oracle500 =
      (.failure e, [.fetch, .delayMs 1000, .fetch, .delayMs 2000, .fetch]) :=
  ⟨(c4_retry_policy .GET oracle404).1 404
      (some { code := "NOT_FOUND", message := "missing" }) rfl rfl,
   (c4_retry_policy .GET oracle500).2 (fun i _ => by
      show retryableOutcome (.httpError 500 none)
      show isRetryable 500 = true
      rfl)⟩

/-- JavaScript `indexOf` yields `-1` exactly on absent elements. -/
theorem indexOfJS_of_not_mem (xs : List String) (x : String) (h : x ∉ xs) :
    indexOfJS xs x = -1 := by
  induction xs with
  | nil => rfl
  | cons y ys ih =>
      rw [List.mem_cons, not_or] at h
      have hy : y ≠ x := fun hyx => h.1 hyx.symm
      simp [indexOfJS, hy, ih h.2]

/-- C7 counterexample: looking up the unknown role "moderator" in
`ROLE_CONFIGS` yields `undefined`, not the FREE limits. -/
theorem c7_counterexample :
    "moderator" ∉ roleHierarchy ∧
    ROLE_CONFIGS "moderator" = none ∧
    ROLE_CONFIGS "moderator" ≠ some freeConfig := by
  refine ⟨by decide, rfl, by decide⟩

/-- C7 amended: an unknown role has no `ROLE_CONFIGS` entry at all (the
lookup yields `undefined`, not the FREE configuration), and `hasRole`
returns false for every known required role — stricter than FREE, which at
least satisfies `hasRole(free)` — so such a user is still never granted
more than a FREE user. -/
theorem c7_amended_unknown_role_granted_nothing
    (r : String) (hr : r ∉ roleHierarchy) :
    ROLE_CONFIGS r = none ∧
    ∀ (u : StoreUser) (q : String), u.role = r → q ∈ roleHierarchy →
      hasRole (some u) q = false := by
  have hne : r ≠ "free" ∧ r ≠ "starter" ∧ r ≠ "pro" ∧ r ≠ "agency" ∧
      r ≠ "admin" := by
    simp only [roleHierarchy, List.mem_cons, List.not_mem_nil, or_false,
      not_or] at hr
    exact hr
  refine ⟨?_, ?_⟩
  · simp [ROLE_CONFIGS, hne.1, hne.2.1, hne.2.2.1, hne.2.2.2.1, hne.2.2.2.2]
  · intro u q hu hq
    have hidx : indexOfJS roleHierarchy u.role = -1 := by
      rw [hu]
      exact indexOfJS_of_not_mem roleHierarchy r hr
    simp only [hasRole, hidx, decide_eq_false_iff_not, ge_iff_le, not_le]
    simp only [roleHierarchy, List.mem_cons, List.not_mem_nil, or_false]
      at hq
    rcases hq with h | h | h | h | h
    · rw [h]; decide
    · rw [h]; decide
    · rw [h]; decide
    · rw [h]; decide
    · rw [h]; decide

/-- C7 amended witness: the concrete unknown role "moderator" has no config
entry and its user fails even the FREE role check. -/
theorem c7_amended_witness :
    ROLE_CONFIGS "moderator" = none ∧
    hasRole (some moderatorUser) "free" = false :=
  ⟨(c7_amended_unknown_role_granted_nothing "moderator" (by decide)).1,
   (c7_amended_unknown_role_granted_nothing "moderator" (by decide)).2
     moderatorUser "free" rfl (by decide)⟩

/-- C8: with no signed-in user `hasRole` is false for every required role,
and for known roles `hasRole(q)` holds exactly when the user's role's rank
in the order free < starter < pro < agency < admin is at least the rank of
`q`. -/
theorem c8_hasRole_is_rank_comparison :
    (∀ q : String, hasRole none q = false) ∧
    (∀ (u : StoreUser) (q : String),
        u.role ∈ roleHierarchy → q ∈ roleHierarchy →
        (hasRole (some u) q = true ↔ roleRank q ≤ roleRank u.role)) := by
  refine ⟨fun q => rfl, ?_⟩
  intro u q hu hq
  simp only [roleHierarchy, List.mem_cons, List.not_mem_nil, or_false]
    at hu hq
  rcases hu with h | h | h | h | h <;> rcases hq with g | g | g | g | g <;>
    (simp only [hasRole, h, g]; decide)

/-- C8 witness: a `pro` user satisfies the `starter` role requirement. -/
theorem c8_witness : hasRole (some proUser) "starter" = true :=
  (c8_hasRole_is_rank_comparison.2 proUser "starter" (by decide)
    (by decide)).mpr (by decide)

/-- C10: every user document created at first sign-in — by email/password
registration or by the first Google sign-in, both via
`createUserDocument` — starts with role `free`, status
`pending_verification`, 5 credits, 5 lifetime credits, no connected
accounts, Google Drive disconnected, and all onboarding/purchase flags
false. -/
theorem c10_new_user_document_defaults
    (fu : FirebaseUserInfo) (dn : Option String) :
    ((registerUserDoc fu dn).role = "free" ∧
     (registerUserDoc fu dn).status = "pending_verification" ∧
     (registerUserDoc fu dn).credits = 5 ∧
     (registerUserDoc fu dn).lifetimeCredits = 5 ∧
     (registerUserDoc fu dn).connectedAccounts = [] ∧
     (registerUserDoc fu dn).googleDrive.connected = false ∧
     (registerUserDoc fu dn).flags.onboardingComplete = false ∧
     (registerUserDoc fu dn).flags.hasGeneratedFirstVideo = false ∧
     (registerUserDoc fu dn).flags.hasPurchased = false) ∧
    (googleFirstSignInDoc fu = createUserDocument fu fu.displayName ∧
     (googleFirstSignInDoc fu).role = "free" ∧
     (googleFirstSignInDoc fu).status = "pending_verification" ∧
     (googleFirstSignInDoc fu).credits = 5 ∧
     (googleFirstSignInDoc fu).lifetimeCredits = 5 ∧
     (googleFirstSignInDoc fu).connectedAccounts = [] ∧
     (googleFirstSignInDoc fu).googleDrive.connected = false ∧
     (googleFirstSignInDoc fu).flags.onboardingComplete = false ∧
     (googleFirstSignInDoc fu).flags.hasGeneratedFirstVideo = false ∧
     (googleFirstSignInDoc fu).flags.hasPurchased = false) :=
  ⟨⟨rfl, rfl, rfl, rfl, rfl, rfl, rfl, rfl, rfl⟩,
   ⟨rfl, rfl, rfl, rfl, rfl, rfl, rfl, rfl, rfl, rfl⟩⟩

end Creovo
